import Mathlib

/-!
Shallow embedding of the daemon session lifecycle and configuration
resolution core of the telepresence CLI (Go sources under
`pkg/client/k8s_config.go`, `pkg/client/cli/daemon/identifier.go`,
`pkg/client/cli/daemon/request.go`, `pkg/client/cli/connect/daemon.go`).

Go maps with string keys are embedded as association lists
`List (String × String)` with first-match lookup; Go `nil`-able pointers
become `Option`; fallible Go functions return `Except Err` where `Err`
carries the errcat-style category attached by the caller (a raw error
coming from an external library carries no category).
-/

namespace Telepresence

/-- Error categories of the `errcat` package (outside the embedded sources):
an error that is never wrapped by one of the category constructors stays
`unclassified`. -/
inductive Category where
  | unclassified
  | user
  | config
  | noDaemonLogs
deriving DecidableEq, Repr

/-- An error value together with the category it carries. -/
structure Err where
  cat : Category
  msg : String
deriving DecidableEq, Repr

/-- A raw error from an external library: no category attached. -/
def rawErr (msg : String) : Err := ⟨Category.unclassified, msg⟩

/-- Association-list lookup mirroring Go's `m[k]` for `map[string]string`
(first binding of the key wins; a missing key yields the zero value `""`). -/
def mapGet (m : List (String × String)) (k : String) : String :=
  match m.find? (fun e => e.1 = k) with
  | some e => e.2
  | none => ""

/-- Whether the Go map holds the key `k`. -/
def hasKey (m : List (String × String)) (k : String) : Bool :=
  m.any (fun e => e.1 = k)

/-- Association-list insertion mirroring Go's `m[k] = v`: replaces the
binding when the key is present, otherwise appends it. -/
def mapPut (m : List (String × String)) (k v : String) : List (String × String) :=
  if hasKey m k then m.map (fun e => if e.1 = k then (k, v) else e) else m ++ [(k, v)]

/-! ## Identifier (`pkg/client/cli/daemon/identifier.go`) -/

/-- `daemon.Identifier`. -/
structure Identifier where
  Name : String
  KubeContext : String
  Namespace : String
deriving DecidableEq, Repr

/-- `daemon.NewIdentifier`. `SafeContainerName` is defined outside the
embedded sources, so it is taken as a parameter `sanitize`; the control flow
below is the source's. -/
def NewIdentifier (sanitize : String → String) (name contextName ns : String) :
    Except Err Identifier :=
  if ns = "" then
    Except.error (rawErr "daemon identifier must have a namespace")
  else
    let name1 :=
      if name = "" then
        if contextName = "" then "in-cluster-" ++ ns
        else contextName ++ "-" ++ ns
      else name
    Except.ok ⟨sanitize name1, contextName, ns⟩

/-- `Identifier.InfoFileName`. -/
def Identifier.InfoFileName (id : Identifier) : String := id.Name ++ ".json"

/-- `Identifier.ContainerName`. -/
def Identifier.ContainerName (id : Identifier) : String := "tp-" ++ id.Name

/-! ## DNS mappings (`pkg/client/k8s_config.go`) -/

/-- `client.DNSMapping`. -/
structure DNSMapping where
  Name : String
  AliasFor : String
deriving DecidableEq, Repr

/-- `rpc.DNSMapping` (only the fields read and written by the embedded
conversion functions). -/
structure RPCDNSMapping where
  Name : String
  AliasFor : String
deriving DecidableEq, Repr

/-- `client.DNSMappings`. -/
abbrev DNSMappings := List DNSMapping

/-- `DNSMappings.FromRPC`: builds a fresh list with one copied entry per
RPC entry, in order. -/
def DNSMappings.FromRPC (rpcMappings : List RPCDNSMapping) : DNSMappings :=
  rpcMappings.foldl (fun d m => d ++ [⟨m.Name, m.AliasFor⟩]) []

/-- `DNSMappings.ToRPC`: builds a fresh RPC list with one copied entry per
entry, in order. -/
def DNSMappings.ToRPC (d : DNSMappings) : List RPCDNSMapping :=
  d.foldl (fun r m => r ++ [⟨m.Name, m.AliasFor⟩]) []

/-! ## Kubeconfig extension model (`pkg/client/k8s_config.go`)

`iputil.IPKey` values are strings in the Go source; `v1.Duration` wraps a
signed integer count of nanoseconds; `iputil.Subnet` entries are opaque to
this layer and embedded as strings. -/

/-- `client.DnsConfig`. -/
structure DnsConfig where
  LocalIP : String
  RemoteIP : String
  ExcludeSuffixes : List String
  IncludeSuffixes : List String
  Excludes : List String
  Mappings : DNSMappings
  LookupTimeout : Int
deriving DecidableEq, Repr

/-- The zero value of `DnsConfig` (Go's `&DnsConfig{}`). -/
def emptyDnsConfig : DnsConfig := ⟨"", "", [], [], [], [], 0⟩

/-- `client.ManagerConfig`. -/
structure ManagerConfig where
  Namespace : String
deriving DecidableEq, Repr

/-- `client.KubeconfigExtension`. -/
structure KubeconfigExtension where
  DNS : Option DnsConfig
  AlsoProxy : List String
  NeverProxy : List String
  Manager : Option ManagerConfig
deriving DecidableEq, Repr

/-- The zero value of `KubeconfigExtension`. -/
def emptyExtension : KubeconfigExtension := ⟨none, [], [], none⟩

/-- `client.Kubeconfig` (the `ConfigFlags` and `RestConfig` fields are
handles into the external Kubernetes client library and are not part of the
embedded state). -/
structure Kubeconfig where
  ext : KubeconfigExtension
  Namespace : String
  Context : String
  Server : String
  FlagMap : List (String × String)
deriving DecidableEq, Repr

/-- `Kubeconfig.GetManagerNamespace`. -/
def Kubeconfig.GetManagerNamespace (kf : Kubeconfig) : String :=
  match kf.ext.Manager with
  | some m => m.Namespace
  | none => ""

/-- The remote `DNS` payload (fields of `client.DNS` read by
`AddRemoteKubeConfigExtension`). -/
structure RemoteDNS where
  LocalIP : String
  RemoteIP : String
  ExcludeSuffixes : List String
  IncludeSuffixes : List String
  Excludes : List String
  Mappings : DNSMappings
  LookupTimeout : Int
deriving DecidableEq, Repr

/-- The remote `Routing` payload (fields of `client.Routing` read by
`AddRemoteKubeConfigExtension`). -/
structure RemoteRouting where
  AlsoProxy : List String
  NeverProxy : List String
deriving DecidableEq, Repr

/-- The parsed remote override payload: the anonymous
`struct { DNS *DNS; Routing *Routing }` that `AddRemoteKubeConfigExtension`
unmarshals the YAML document into. -/
structure RemoteConfig where
  DNS : Option RemoteDNS
  Routing : Option RemoteRouting
deriving DecidableEq, Repr

/-- `Kubeconfig.AddRemoteKubeConfigExtension`, after the YAML unmarshal
(parsing is external; a parse failure returns before any mutation, so the
merge itself is embedded as a total function on the parsed payload). -/
def AddRemoteKubeConfigExtension (kf : Kubeconfig) (remote : RemoteConfig) : Kubeconfig :=
  let d0 := match kf.ext.DNS with
    | some d => d
    | none => emptyDnsConfig
  let d1 := match remote.DNS with
    | none => d0
    | some dns =>
      { LocalIP := if d0.LocalIP = "" then dns.LocalIP else d0.LocalIP
        RemoteIP := if d0.RemoteIP = "" then dns.RemoteIP else d0.RemoteIP
        ExcludeSuffixes := d0.ExcludeSuffixes ++ dns.ExcludeSuffixes
        IncludeSuffixes := d0.IncludeSuffixes ++ dns.IncludeSuffixes
        Excludes := d0.Excludes ++ dns.Excludes
        Mappings := d0.Mappings ++ dns.Mappings
        LookupTimeout := if d0.LookupTimeout = 0 then dns.LookupTimeout else d0.LookupTimeout }
  let also1 := match remote.Routing with
    | none => kf.ext.AlsoProxy
    | some r => kf.ext.AlsoProxy ++ r.AlsoProxy
  let never1 := match remote.Routing with
    | none => kf.ext.NeverProxy
    | some r => kf.ext.NeverProxy ++ r.NeverProxy
  { kf with ext :=
      { DNS := some d1
        AlsoProxy := also1
        NeverProxy := never1
        Manager := kf.ext.Manager } }

/-- The DNS section of a resolved kubeconfig, with Go's nil-pointer zero
value (`AddRemoteKubeConfigExtension` itself starts by replacing a nil `DNS`
with `&DnsConfig{}`). -/
def dnsOf (kf : Kubeconfig) : DnsConfig :=
  match kf.ext.DNS with
  | some d => d
  | none => emptyDnsConfig

/-- The `ExcludeSuffixes` entries a remote payload contributes. -/
def remoteExcludeSuffixes (p : RemoteConfig) : List String :=
  match p.DNS with
  | some d => d.ExcludeSuffixes
  | none => []

/-- The `IncludeSuffixes` entries a remote payload contributes. -/
def remoteIncludeSuffixes (p : RemoteConfig) : List String :=
  match p.DNS with
  | some d => d.IncludeSuffixes
  | none => []

/-- The `Excludes` entries a remote payload contributes. -/
def remoteExcludes (p : RemoteConfig) : List String :=
  match p.DNS with
  | some d => d.Excludes
  | none => []

/-- The `Mappings` entries a remote payload contributes. -/
def remoteMappings (p : RemoteConfig) : DNSMappings :=
  match p.DNS with
  | some d => d.Mappings
  | none => []

/-- The `AlsoProxy` entries a remote payload contributes. -/
def remoteAlsoProxy (p : RemoteConfig) : List String :=
  match p.Routing with
  | some r => r.AlsoProxy
  | none => []

/-- The `NeverProxy` entries a remote payload contributes. -/
def remoteNeverProxy (p : RemoteConfig) : List String :=
  match p.Routing with
  | some r => r.NeverProxy
  | none => []

/-! ## Kubeconfig resolution (`newKubeconfig` in `pkg/client/k8s_config.go`)

The raw kubeconfig is the state the external loader returns: its context and
cluster tables, the current-context name, and the namespace the loader's own
default-namespace algorithm resolves.  The `telepresence.io` cluster
extension arrives already parsed (an unparseable blob fails before the code
embedded here runs, with a `Config`-category error). -/

/-- A context entry of the raw kubeconfig (`api.Context`): the name of the
cluster it references. -/
structure ApiContext where
  Cluster : String
deriving DecidableEq, Repr

/-- A cluster entry of the raw kubeconfig (`api.Cluster`) together with its
parsed `telepresence.io` extension, when present. -/
structure ApiCluster where
  Server : String
  Extension : Option KubeconfigExtension
deriving DecidableEq, Repr

/-- The raw kubeconfig (`api.Config`) as the loader returns it. -/
structure RawConfig where
  Contexts : List (String × ApiContext)
  Clusters : List (String × ApiCluster)
  CurrentContext : String
deriving DecidableEq, Repr

/-- Association-list lookup for the raw-config tables (Go's two-valued
`m[k]` form). -/
def tableGet {α : Type} (m : List (String × α)) (k : String) : Option α :=
  match m.find? (fun e => e.1 = k) with
  | some e => some e.2
  | none => none

/-- `newKubeconfig`: resolves the context, cluster, extension and manager
namespace.  `namespace0` is the namespace the external loader resolves;
`envManagerNamespace` is `GetEnv(c).ManagerNamespace`;
`defaultManagerNamespace` is `GetConfig(c).Cluster().DefaultManagerNamespace`. -/
def newKubeconfig (flagMap : List (String × String)) (managerNamespaceOverride : String)
    (config : RawConfig) (namespace0 : String)
    (envManagerNamespace defaultManagerNamespace : String) : Except Err Kubeconfig :=
  if config.Contexts.length = 0 then
    Except.error ⟨Category.config, "kubeconfig has no context definition"⟩
  else
    let ctxName0 := mapGet flagMap "context"
    let ctxName := if ctxName0 = "" then config.CurrentContext else ctxName0
    match tableGet config.Contexts ctxName with
    | none =>
        Except.error ⟨Category.config,
          "context " ++ ctxName ++ " does not exist in the kubeconfig"⟩
    | some ctx =>
      match tableGet config.Clusters ctx.Cluster with
      | none =>
          Except.error ⟨Category.config,
            "the cluster " ++ ctx.Cluster ++ " declared in context " ++ ctxName
              ++ " does exists in the kubeconfig"⟩
      | some cluster =>
        let ext0 := match cluster.Extension with
          | some e => e
          | none => emptyExtension
        let mgr0 := match ext0.Manager with
          | some m => m
          | none => ManagerConfig.mk ""
        let mgr1 := if managerNamespaceOverride ≠ "" then
            ManagerConfig.mk managerNamespaceOverride else mgr0
        let mgr2 := if mgr1.Namespace = "" then ManagerConfig.mk envManagerNamespace else mgr1
        let mgr3 := if mgr2.Namespace = "" then ManagerConfig.mk defaultManagerNamespace else mgr2
        Except.ok
          { ext := { ext0 with Manager := some mgr3 }
            Namespace := namespace0
            Context := ctxName
            Server := cluster.Server
            FlagMap := flagMap }

/-- The spec's wording of the manager-namespace rule: among the candidate
values, in the spec's claimed precedence order, the first non-empty one
wins. -/
def firstNonEmpty (candidates : List String) : String :=
  match candidates with
  | [] => ""
  | c :: rest => if c ≠ "" then c else firstNonEmpty rest

/-! ## Root daemon lifecycle (`pkg/client/cli/connect/daemon.go`)

The collaborators (`socket`, `proc`, the user-daemon RPC) are external; each
call's outcome enters the embedded functions as an explicit result value, so
the functions below are exactly the source's control flow over those
outcomes. -/

/-- Outcome of `UserDaemonDisconnect`: success, the `ErrNoUserDaemon`
sentinel, or some other error. -/
inductive UDResult where
  | ok
  | noUserDaemon
  | fail (msg : String)
deriving DecidableEq, Repr

/-- `connect.Disconnect`.  `waitVanish` is the result of
`socket.WaitUntilVanishes` on the root daemon socket (`none` = the socket
vanished in time); `dial` is the result of `socket.Dial`; `quit` is the
result of the fallback `Quit` RPC.  The returned value is `Disconnect`'s
error result (`none` = success). -/
def Disconnect (quitDaemons : Bool) (ud : UDResult)
    (waitVanish : Option String) (dial : Except String Unit)
    (quit : Except String Unit) : Option String :=
  match ud with
  | UDResult.fail e => some ("error when quitting connector: " ++ e)
  | _ =>
    if quitDaemons then
      match waitVanish with
      | none => none
      | some _ =>
        match dial with
        | Except.error de => some de
        | Except.ok _ =>
          match quit with
          | Except.ok _ => none
          | Except.error qe => some ("error when quitting root daemon: " ++ qe)
    else none

/-- The outcomes of the external calls `ensureRootDaemonRunning` makes, in
the order it can make them. -/
structure DaemonProbeEnv where
  userClientRemote : Bool
  requestDocker : Bool
  userDaemonAddress : String
  isRunning : Except String Bool
  launch : Except String Unit
  waitRunning : Except String Unit
deriving Repr

/-- `connect.ensureRootDaemonRunning`: returns its error result (`none` =
success) paired with the number of spawn attempts (`launchDaemon` calls)
made. -/
def ensureRootDaemonRunning (e : DaemonProbeEnv) : Option String × Nat :=
  if e.userClientRemote then (none, 0)
  else if e.requestDocker then (none, 0)
  else if e.userDaemonAddress ≠ "" then (none, 0)
  else
    match e.isRunning with
    | Except.error msg => (some msg, 0)
    | Except.ok true => (none, 0)
    | Except.ok false =>
      match e.launch with
      | Except.error msg => (some ("failed to launch the daemon service: " ++ msg), 1)
      | Except.ok _ =>
        match e.waitRunning with
        | Except.error msg => (some ("daemon service did not start: " ++ msg), 1)
        | Except.ok _ => (none, 1)

/-! ## Connection request (`pkg/client/cli/daemon/request.go`) -/

/-- One entry of the embedded Kubernetes flag set: its name, whether the
user changed it, its rendered value, and its slice form when the flag is
slice-valued. -/
structure Flag where
  name : String
  changed : Bool
  value : String
  sliceVal : Option (List String)
deriving DecidableEq, Repr

/-- Modelled from the spec: `slice.AsCSV` (package `pkg/slice`, outside the
embedded sources) serializes slice values as a comma-separated list via a
CSV-safe encoder. -/
def AsCSV (vs : List String) : String := String.intercalate "," vs

/-- A compiled Go regular expression.  Go's `regexp` engine is external, so
pattern compilation enters the embedded functions as a parameter producing
this opaque result. -/
structure CompiledRegex where
  pattern : String
deriving DecidableEq, Repr

/-- `strconv.ParseBool` with its error discarded, as the source does for the
`--docker` flag (`cr.Docker, _ = strconv.ParseBool(...)`): an unparseable
value leaves the zero value `false`. -/
def parseBool (s : String) : Bool :=
  s = "1" ∨ s = "t" ∨ s = "T" ∨ s = "TRUE" ∨ s = "true" ∨ s = "True"

/-- The fields of `daemon.Request` the embedded operations read and write.
`contextPtr` is the typed context pointer `cr.kubeConfig.Context`. -/
structure Request where
  KubeFlags : List (String × String)
  Environment : List (String × String)
  Docker : Bool
  Use : Option CompiledRegex
  contextPtr : Option String
deriving DecidableEq, Repr

/-- The request `InitRequest` builds: `KubeFlags` starts as a fresh empty
map. -/
def initRequest : Request := ⟨[], [], false, none, none⟩

/-- The global flags `setGlobalConnectFlags` consults on the command:
`--context`, `--docker` and `--use` (`none` = the command has no such
flag). -/
structure GlobalFlags where
  contextFlag : Option Flag
  dockerFlag : Option Flag
  useFlag : Option Flag
deriving DecidableEq, Repr

/-- The `addEnv` closure of `Request.addKubeconfigEnv`: a set variable is
recorded under its own name, an unset one under the dash-prefixed name with
an empty value. -/
def addEnvKey (lookupEnv : String → Option String) (m : List (String × String))
    (key : String) : List (String × String) :=
  match lookupEnv key with
  | some v => mapPut m key v
  | none => mapPut m ("-" ++ key) ""

/-- `Request.addKubeconfigEnv`: rebuilds the propagation map from the
ambient environment (`lookupEnv` is `os.LookupEnv`). -/
def addKubeconfigEnv (lookupEnv : String → Option String) : List (String × String) :=
  addEnvKey lookupEnv (addEnvKey lookupEnv [] "KUBECONFIG") "GOOGLE_APPLICATION_CREDENTIALS"

/-- The `--context` block of `Request.setGlobalConnectFlags`: a changed
context flag is written both into `KubeFlags` and into the typed context
pointer. -/
def applyContextFlag (g : GlobalFlags) (cr : Request) : Request :=
  match g.contextFlag with
  | some f =>
    if f.changed then
      { cr with KubeFlags := mapPut cr.KubeFlags "context" f.value
                contextPtr := some f.value }
    else cr
  | none => cr

/-- The `--docker` block of `Request.setGlobalConnectFlags`. -/
def applyDockerFlag (g : GlobalFlags) (cr : Request) : Request :=
  match g.dockerFlag with
  | some f => if f.changed then { cr with Docker := parseBool f.value } else cr
  | none => cr

/-- The `--use` block of `Request.setGlobalConnectFlags`: a failed compile
returns the raw error of the regexp engine, with no errcat category
attached. -/
def applyUseFlag (compile : String → Except String CompiledRegex) (g : GlobalFlags)
    (cr : Request) : Except Err Request :=
  match g.useFlag with
  | some f =>
    if f.changed then
      match compile f.value with
      | Except.ok r => Except.ok { cr with Use := some r }
      | Except.error msg => Except.error (rawErr msg)
    else Except.ok cr
  | none => Except.ok cr

/-- `Request.setGlobalConnectFlags`: the three blocks in source order. -/
def setGlobalConnectFlags (compile : String → Except String CompiledRegex)
    (g : GlobalFlags) (cr : Request) : Except Err Request :=
  applyUseFlag compile g (applyDockerFlag g (applyContextFlag g cr))

/-- The serialized value `CommitFlags` stores for a changed flag: the CSV
form for slice-valued flags, the plain rendered value otherwise. -/
def flagCommitValue (f : Flag) : String :=
  match f.sliceVal with
  | some vs => AsCSV vs
  | none => f.value

/-- The `VisitAll` loop of `CommitFlags`: every changed flag's serialized
value is inserted into `KubeFlags` under the flag's name. -/
def visitAllCommit (flags : List Flag) (kubeFlags : List (String × String)) :
    List (String × String) :=
  flags.foldl (fun m f => if f.changed then mapPut m f.name (flagCommitValue f) else m)
    kubeFlags

/-- `Request.CommitFlags`: captures changed Kubernetes flags, snapshots the
environment, then applies the global connect flags. -/
def CommitFlags (compile : String → Except String CompiledRegex)
    (lookupEnv : String → Option String) (kubeFlagSet : List Flag) (g : GlobalFlags)
    (cr : Request) : Except Err Request :=
  let cr1 := { cr with KubeFlags := visitAllCommit kubeFlagSet cr.KubeFlags }
  let cr2 := { cr1 with Environment := addKubeconfigEnv lookupEnv }
  setGlobalConnectFlags compile g cr2

end Telepresence

namespace Telepresence

/-! ### Theorems for the Identifier and the DNS mapping round-trip -/

theorem foldl_append_copy_from (l : List RPCDNSMapping) (acc : List DNSMapping) :
    l.foldl (fun d m => d ++ [(⟨m.Name, m.AliasFor⟩ : DNSMapping)]) acc
      = acc ++ l.map (fun m => (⟨m.Name, m.AliasFor⟩ : DNSMapping)) := by
  induction l generalizing acc with
  | nil => simp
  | cons x xs ih => simp [List.foldl_cons, ih]

theorem foldl_append_copy_to (l : List DNSMapping) (acc : List RPCDNSMapping) :
    l.foldl (fun r m => r ++ [(⟨m.Name, m.AliasFor⟩ : RPCDNSMapping)]) acc
      = acc ++ l.map (fun m => (⟨m.Name, m.AliasFor⟩ : RPCDNSMapping)) := by
  induction l generalizing acc with
  | nil => simp
  | cons x xs ih => simp [List.foldl_cons, ih]

/-- C10: converting a list of RPC DNS mappings with `FromRPC` and back with
`ToRPC` yields a list of the same length whose entries carry the same `Name`
and `AliasFor` values in the same order. -/
theorem C10_fromRPC_toRPC_roundtrip (l : List RPCDNSMapping) :
    (DNSMappings.ToRPC (DNSMappings.FromRPC l)).length = l.length ∧
    (DNSMappings.ToRPC (DNSMappings.FromRPC l)).map (fun m => (m.Name, m.AliasFor))
      = l.map (fun m => (m.Name, m.AliasFor)) := by
  have h : DNSMappings.ToRPC (DNSMappings.FromRPC l) = l.map (fun m => ⟨m.Name, m.AliasFor⟩) := by
    unfold DNSMappings.ToRPC DNSMappings.FromRPC
    rw [foldl_append_copy_from, List.nil_append, foldl_append_copy_to, List.nil_append,
      List.map_map]
    rfl
  constructor
  · rw [h, List.length_map]
  · rw [h, List.map_map]
    rfl

/-- C6: with a non-empty namespace and an empty explicit name, `NewIdentifier`
succeeds and derives the name `sanitize(context ++ "-" ++ namespace)` when the
context is non-empty and `sanitize("in-cluster-" ++ namespace)` when it is
empty; with an empty namespace it fails for every name and context. -/
theorem C6_newIdentifier_name_derivation (sanitize : String → String)
    (c n : String) (hn : n ≠ "") :
    (NewIdentifier sanitize "" c n =
      Except.ok ⟨if c = "" then sanitize ("in-cluster-" ++ n) else sanitize (c ++ "-" ++ n),
        c, n⟩) ∧
    (∀ name ctx, NewIdentifier sanitize name ctx "" =
      Except.error (rawErr "daemon identifier must have a namespace")) := by
  constructor
  · unfold NewIdentifier
    rw [if_neg hn]
    by_cases hc : c = "" <;> simp [hc]
  · intro name ctx
    unfold NewIdentifier
    simp

/-- Witness for C6 at a concrete context and namespace. -/
theorem C6_newIdentifier_name_derivation_witness :
    (NewIdentifier (fun s => s) "" "kind" "apps" =
      Except.ok ⟨if ("kind" : String) = "" then "in-cluster-" ++ "apps" else "kind" ++ "-" ++ "apps",
        "kind", "apps"⟩) ∧
    (∀ name ctx, NewIdentifier (fun s => s) name ctx "" =
      Except.error (rawErr "daemon identifier must have a namespace")) :=
  C6_newIdentifier_name_derivation (fun s => s) "kind" "apps" (by decide)

/-! ### Theorems for the remote extension merge -/

/-- C7: merging the same remote payload twice gives, for the scalar fields
`LocalIP`, `RemoteIP` and `LookupTimeout`, the same values as merging it
once; and each merge extends every list field by appending exactly the
remote entries after the existing ones, removing and reordering nothing. -/
theorem C7_merge_twice_scalar_idempotent_lists_append (kf : Kubeconfig) (p : RemoteConfig) :
    ((dnsOf (AddRemoteKubeConfigExtension (AddRemoteKubeConfigExtension kf p) p)).LocalIP
        = (dnsOf (AddRemoteKubeConfigExtension kf p)).LocalIP ∧
      (dnsOf (AddRemoteKubeConfigExtension (AddRemoteKubeConfigExtension kf p) p)).RemoteIP
        = (dnsOf (AddRemoteKubeConfigExtension kf p)).RemoteIP ∧
      (dnsOf (AddRemoteKubeConfigExtension (AddRemoteKubeConfigExtension kf p) p)).LookupTimeout
        = (dnsOf (AddRemoteKubeConfigExtension kf p)).LookupTimeout) ∧
    (∀ kf0 : Kubeconfig,
      (dnsOf (AddRemoteKubeConfigExtension kf0 p)).ExcludeSuffixes
          = (dnsOf kf0).ExcludeSuffixes ++ remoteExcludeSuffixes p ∧
        (dnsOf (AddRemoteKubeConfigExtension kf0 p)).IncludeSuffixes
          = (dnsOf kf0).IncludeSuffixes ++ remoteIncludeSuffixes p ∧
        (dnsOf (AddRemoteKubeConfigExtension kf0 p)).Excludes
          = (dnsOf kf0).Excludes ++ remoteExcludes p ∧
        (dnsOf (AddRemoteKubeConfigExtension kf0 p)).Mappings
          = (dnsOf kf0).Mappings ++ remoteMappings p ∧
        (AddRemoteKubeConfigExtension kf0 p).ext.AlsoProxy
          = kf0.ext.AlsoProxy ++ remoteAlsoProxy p ∧
        (AddRemoteKubeConfigExtension kf0 p).ext.NeverProxy
          = kf0.ext.NeverProxy ++ remoteNeverProxy p) := by
  constructor
  · rcases p with ⟨pd, pr⟩
    rcases pd with _ | ⟨d⟩ <;>
      rcases hd : kf.ext.DNS with _ | ⟨d0⟩ <;>
        simp [AddRemoteKubeConfigExtension, dnsOf, hd, emptyDnsConfig] <;>
          constructor <;> [skip; constructor] <;> split <;> simp_all
  · intro kf0
    rcases p with ⟨pd, pr⟩
    rcases pd with _ | ⟨d⟩ <;> rcases pr with _ | ⟨r⟩ <;>
      rcases hd : kf0.ext.DNS with _ | ⟨d0⟩ <;>
        simp [AddRemoteKubeConfigExtension, dnsOf, hd, emptyDnsConfig,
          remoteExcludeSuffixes, remoteIncludeSuffixes, remoteExcludes, remoteMappings,
          remoteAlsoProxy, remoteNeverProxy]

/-- C8: a non-empty local `LocalIP` survives any merge unchanged; an empty
local `LocalIP` is set to exactly the remote dns section's `LocalIP`. -/
theorem C8_localIP_fill_only (kf : Kubeconfig) (p : RemoteConfig) :
    ((dnsOf kf).LocalIP ≠ "" →
      (dnsOf (AddRemoteKubeConfigExtension kf p)).LocalIP = (dnsOf kf).LocalIP) ∧
    (∀ r : RemoteDNS, (dnsOf kf).LocalIP = "" → p.DNS = some r →
      (dnsOf (AddRemoteKubeConfigExtension kf p)).LocalIP = r.LocalIP) := by
  constructor
  · intro hne
    rcases p with ⟨pd, pr⟩
    rcases pd with _ | ⟨d⟩ <;>
      rcases hd : kf.ext.DNS with _ | ⟨d0⟩ <;>
        simp_all [AddRemoteKubeConfigExtension, dnsOf, hd, emptyDnsConfig]
  · intro r hempty hsome
    rcases p with ⟨pd, pr⟩
    cases hsome
    rcases hd : kf.ext.DNS with _ | ⟨d0⟩ <;>
      simp_all [AddRemoteKubeConfigExtension, dnsOf, hd, emptyDnsConfig]

/-- Witness for C8: a local config with `LocalIP = "10.0.0.1"` keeps it, and
one with an empty `LocalIP` receives the remote value `"10.1.2.3"`. -/
theorem C8_localIP_fill_only_witness :
    ((dnsOf ⟨⟨some ⟨"10.0.0.1", "", [], [], [], [], 0⟩, [], [], none⟩, "ns", "ctx", "srv", []⟩).LocalIP ≠ "" ∧
      (dnsOf (AddRemoteKubeConfigExtension
          ⟨⟨some ⟨"10.0.0.1", "", [], [], [], [], 0⟩, [], [], none⟩, "ns", "ctx", "srv", []⟩
          ⟨some ⟨"10.1.2.3", "", [], [], [], [], 0⟩, none⟩)).LocalIP
        = (dnsOf ⟨⟨some ⟨"10.0.0.1", "", [], [], [], [], 0⟩, [], [], none⟩, "ns", "ctx", "srv", []⟩).LocalIP) ∧
    ((dnsOf ⟨⟨none, [], [], none⟩, "ns", "ctx", "srv", []⟩).LocalIP = "" ∧
      (dnsOf (AddRemoteKubeConfigExtension ⟨⟨none, [], [], none⟩, "ns", "ctx", "srv", []⟩
          ⟨some ⟨"10.1.2.3", "", [], [], [], [], 0⟩, none⟩)).LocalIP = "10.1.2.3") :=
  ⟨⟨by decide,
      (C8_localIP_fill_only
        ⟨⟨some ⟨"10.0.0.1", "", [], [], [], [], 0⟩, [], [], none⟩, "ns", "ctx", "srv", []⟩
        ⟨some ⟨"10.1.2.3", "", [], [], [], [], 0⟩, none⟩).1 (by decide)⟩,
    ⟨by decide,
      (C8_localIP_fill_only ⟨⟨none, [], [], none⟩, "ns", "ctx", "srv", []⟩
        ⟨some ⟨"10.1.2.3", "", [], [], [], [], 0⟩, none⟩).2
        ⟨"10.1.2.3", "", [], [], [], [], 0⟩ (by decide) rfl⟩⟩

/-! ### Theorems for the manager-namespace resolution -/

/-- C1 counterexample: with an empty explicit override, environment value
`"y"` and cluster-extension value `"z"`, `newKubeconfig` resolves the manager
namespace to `"z"`, not to `"y"` as the claimed
override → environment → extension → default precedence would give: the code
consults the environment only when the extension value is empty. -/
theorem C1_counterexample_env_does_not_beat_extension :
    (newKubeconfig [] ""
        ⟨[("ctx", ⟨"c1"⟩)], [("c1", ⟨"srv", some ⟨none, [], [], some ⟨"z"⟩⟩⟩)], "ctx"⟩
        "default" "y" "ambassador"
      = Except.ok
          ⟨⟨none, [], [], some ⟨"z"⟩⟩, "default", "ctx", "srv", []⟩) ∧
    Kubeconfig.GetManagerNamespace
        ⟨⟨none, [], [], some ⟨"z"⟩⟩, "default", "ctx", "srv", []⟩ ≠ "y" := by
  constructor
  · rfl
  · decide

/-- C1 amended: the manager namespace follows the precedence explicit
override → cluster extension value → environment variable → global default,
first non-empty wins; whenever the flag map and raw config resolve to a
cluster whose extension carries manager namespace `z`, the resolved
`Manager.Namespace` is the first non-empty value of that sequence. -/
theorem C1_managerNamespace_precedence (flagMap : List (String × String))
    (override : String) (config : RawConfig) (ns0 env deflt : String)
    (ctx : ApiContext) (cluster : ApiCluster) (e : KubeconfigExtension) (z : String)
    (hne : config.Contexts.length ≠ 0)
    (hctx : tableGet config.Contexts
      (if mapGet flagMap "context" = "" then config.CurrentContext
        else mapGet flagMap "context") = some ctx)
    (hcl : tableGet config.Clusters ctx.Cluster = some cluster)
    (hext : cluster.Extension = some e)
    (hmgr : e.Manager = some ⟨z⟩) :
    ∃ k : Kubeconfig,
      newKubeconfig flagMap override config ns0 env deflt = Except.ok k ∧
        k.GetManagerNamespace = firstNonEmpty [override, z, env, deflt] := by
  unfold newKubeconfig
  rw [if_neg hne]
  simp only [hctx, hcl, hext, hmgr]
  refine ⟨_, rfl, ?_⟩
  by_cases ho : override = "" <;>
    by_cases hz : z = "" <;>
      by_cases he : env = "" <;>
        by_cases hd : deflt = "" <;>
          simp [Kubeconfig.GetManagerNamespace, firstNonEmpty, ho, hz, he, hd]

/-- Witness for C1 amended: empty override, extension `"z"`, environment
`"y"` resolve to `"z"`. -/
theorem C1_managerNamespace_precedence_witness :
    ∃ k : Kubeconfig,
      newKubeconfig [] ""
          ⟨[("ctx", ⟨"c1"⟩)], [("c1", ⟨"srv", some ⟨none, [], [], some ⟨"z"⟩⟩⟩)], "ctx"⟩
          "default" "y" "ambassador"
        = Except.ok k ∧
        k.GetManagerNamespace = firstNonEmpty ["", "z", "y", "ambassador"] :=
  C1_managerNamespace_precedence [] ""
    ⟨[("ctx", ⟨"c1"⟩)], [("c1", ⟨"srv", some ⟨none, [], [], some ⟨"z"⟩⟩⟩)], "ctx"⟩
    "default" "y" "ambassador" ⟨"c1"⟩ ⟨"srv", some ⟨none, [], [], some ⟨"z"⟩⟩⟩
    ⟨none, [], [], some ⟨"z"⟩⟩ "z" (by decide) rfl rfl rfl rfl

/-! ### Theorems for the daemon lifecycle -/

/-- C2 counterexample: with a successful user-daemon disconnect, a
`WaitUntilVanishes` timeout and a failing fallback dial, `Disconnect`
returns the dial failure as its error result instead of downgrading it to a
warning. -/
theorem C2_counterexample_fallback_failure_aborts :
    Disconnect true UDResult.ok (some "timed out waiting for root daemon to vanish")
        (Except.error "dial unix: connection refused") (Except.ok ())
      = some "dial unix: connection refused" ∧
    Disconnect true UDResult.ok (some "timed out waiting for root daemon to vanish")
        (Except.error "dial unix: connection refused") (Except.ok ()) ≠ none := by
  constructor
  · rfl
  · simp [Disconnect]

/-- C2 amended: when full teardown is requested, the user-daemon disconnect
succeeded (or reported no user daemon) and the root daemon socket did not
vanish in time, a fallback dial failure becomes `Disconnect`'s error result
unchanged, a fallback `Quit` RPC failure becomes its error result wrapped as
"error when quitting root daemon", and only a successful dial and `Quit`
leave the disconnect successful. -/
theorem C2_fallback_failure_is_error_result (ud : UDResult) (w : String)
    (hud : ud = UDResult.ok ∨ ud = UDResult.noUserDaemon) :
    (∀ de quit, Disconnect true ud (some w) (Except.error de) quit = some de) ∧
    (∀ qe, Disconnect true ud (some w) (Except.ok ()) (Except.error qe)
      = some ("error when quitting root daemon: " ++ qe)) ∧
    Disconnect true ud (some w) (Except.ok ()) (Except.ok ()) = none := by
  rcases hud with rfl | rfl <;>
    exact ⟨fun de quit => rfl, fun qe => rfl, rfl⟩

/-- Witness for C2 amended at concrete outcomes. -/
theorem C2_fallback_failure_is_error_result_witness :
    Disconnect true UDResult.ok (some "timeout") (Except.error "refused") (Except.ok ())
      = some "refused" ∧
    Disconnect true UDResult.ok (some "timeout") (Except.ok ()) (Except.error "EOF")
      = some ("error when quitting root daemon: " ++ "EOF") ∧
    Disconnect true UDResult.ok (some "timeout") (Except.ok ()) (Except.ok ()) = none :=
  ⟨(C2_fallback_failure_is_error_result UDResult.ok "timeout" (Or.inl rfl)).1 "refused"
      (Except.ok ()),
    (C2_fallback_failure_is_error_result UDResult.ok "timeout" (Or.inl rfl)).2.1 "EOF",
    (C2_fallback_failure_is_error_result UDResult.ok "timeout" (Or.inl rfl)).2.2⟩

/-- C4: when the root daemon socket already reports running and the probe
returned no error, `ensureRootDaemonRunning` succeeds immediately and makes
no spawn attempt. -/
theorem C4_already_running_no_spawn (e : DaemonProbeEnv)
    (h : e.isRunning = Except.ok true) :
    ensureRootDaemonRunning e = (none, 0) := by
  rcases e with ⟨ucr, rd, uda, ir, l, w⟩
  simp only at h
  subst h
  unfold ensureRootDaemonRunning
  rcases ucr <;> rcases rd <;> by_cases ha : uda = "" <;> simp [ha]

/-- Witness for C4: a probe environment whose socket reports running. -/
theorem C4_already_running_no_spawn_witness :
    ensureRootDaemonRunning
        ⟨false, false, "", Except.ok true, Except.ok (), Except.ok ()⟩ = (none, 0) :=
  C4_already_running_no_spawn
    ⟨false, false, "", Except.ok true, Except.ok (), Except.ok ()⟩ rfl

/-! ### Theorems for the connection request -/

/-- C5: for every ambient environment the propagation map holds exactly one
of the keys `KUBECONFIG` and `-KUBECONFIG`: the dash-prefixed key with an
empty value when the variable is unset, the plain key with the variable's
value when it is set. -/
theorem C5_kubeconfig_env_capture (lookupEnv : String → Option String) :
    (hasKey (addKubeconfigEnv lookupEnv) "KUBECONFIG"
      = !hasKey (addKubeconfigEnv lookupEnv) "-KUBECONFIG") ∧
    (lookupEnv "KUBECONFIG" = none →
      hasKey (addKubeconfigEnv lookupEnv) "-KUBECONFIG" = true ∧
      mapGet (addKubeconfigEnv lookupEnv) "-KUBECONFIG" = "" ∧
      hasKey (addKubeconfigEnv lookupEnv) "KUBECONFIG" = false) ∧
    (∀ v, lookupEnv "KUBECONFIG" = some v →
      hasKey (addKubeconfigEnv lookupEnv) "KUBECONFIG" = true ∧
      mapGet (addKubeconfigEnv lookupEnv) "KUBECONFIG" = v ∧
      hasKey (addKubeconfigEnv lookupEnv) "-KUBECONFIG" = false) := by
  rcases hk : lookupEnv "KUBECONFIG" with _ | v0 <;>
    rcases hg : lookupEnv "GOOGLE_APPLICATION_CREDENTIALS" with _ | w0 <;>
      simp [addKubeconfigEnv, addEnvKey, hk, hg, mapPut, hasKey, mapGet]

/-- Witness for C5: an environment with `KUBECONFIG=/a:/b`, and one with
`KUBECONFIG` unset. -/
theorem C5_kubeconfig_env_capture_witness :
    (hasKey (addKubeconfigEnv (fun k => if k = "KUBECONFIG" then some "/a:/b" else none))
        "KUBECONFIG" = true ∧
      mapGet (addKubeconfigEnv (fun k => if k = "KUBECONFIG" then some "/a:/b" else none))
        "KUBECONFIG" = "/a:/b" ∧
      hasKey (addKubeconfigEnv (fun k => if k = "KUBECONFIG" then some "/a:/b" else none))
        "-KUBECONFIG" = false) ∧
    (hasKey (addKubeconfigEnv (fun _ => none)) "-KUBECONFIG" = true ∧
      mapGet (addKubeconfigEnv (fun _ => none)) "-KUBECONFIG" = "" ∧
      hasKey (addKubeconfigEnv (fun _ => none)) "KUBECONFIG" = false) :=
  ⟨(C5_kubeconfig_env_capture (fun k => if k = "KUBECONFIG" then some "/a:/b" else none)).2.2
      "/a:/b" (by decide),
    (C5_kubeconfig_env_capture (fun _ => none)).2.1 rfl⟩

/-- C3 counterexample: committing a changed `--use` flag whose pattern does
not compile returns the raw error of the regexp engine: the error's category
is `unclassified`, not the user or config classification the claim names. -/
theorem C3_counterexample_use_error_unclassified :
    CommitFlags (fun _ => Except.error "error parsing regexp: missing closing )")
        (fun _ => none) [] ⟨none, none, some ⟨"use", true, "(", none⟩⟩ initRequest
      = Except.error ⟨Category.unclassified, "error parsing regexp: missing closing )"⟩ ∧
    Category.unclassified ≠ Category.user ∧
    Category.unclassified ≠ Category.config := by
  refine ⟨rfl, ?_, ?_⟩ <;> decide

/-- C3 amended: committing a changed `--use` flag whose pattern does not
compile fails with the raw compile error, carrying no category; with a
compiling pattern, the commit succeeds and stores the compiled matcher in
the request's `Use` field. -/
theorem C3_use_flag_compile (compile : String → Except String CompiledRegex)
    (lookupEnv : String → Option String) (kubeFlagSet : List Flag)
    (cf df : Option Flag) (f : Flag) (cr : Request) (hch : f.changed = true) :
    (∀ msg, compile f.value = Except.error msg →
      CommitFlags compile lookupEnv kubeFlagSet ⟨cf, df, some f⟩ cr
        = Except.error ⟨Category.unclassified, msg⟩) ∧
    (∀ r, compile f.value = Except.ok r →
      ∃ cr2, CommitFlags compile lookupEnv kubeFlagSet ⟨cf, df, some f⟩ cr
          = Except.ok cr2 ∧ cr2.Use = some r) := by
  constructor
  · intro msg hmsg
    unfold CommitFlags setGlobalConnectFlags
    simp [applyUseFlag, hch, hmsg, rawErr]
  · intro r hr
    unfold CommitFlags setGlobalConnectFlags
    simp [applyUseFlag, hch, hr]

/-- Witness for C3 amended: a failing pattern aborts the commit raw and
unclassified; a compiling one is stored on the request. -/
theorem C3_use_flag_compile_witness :
    CommitFlags (fun s => if s = "(" then Except.error "missing closing )" else Except.ok ⟨s⟩)
        (fun _ => none) [] ⟨none, none, some ⟨"use", true, "(", none⟩⟩ initRequest
      = Except.error ⟨Category.unclassified, "missing closing )"⟩ ∧
    ∃ cr2,
      CommitFlags (fun s => if s = "(" then Except.error "missing closing )" else Except.ok ⟨s⟩)
          (fun _ => none) [] ⟨none, none, some ⟨"use", true, "sess", none⟩⟩ initRequest
        = Except.ok cr2 ∧ cr2.Use = some ⟨"sess"⟩ :=
  ⟨(C3_use_flag_compile
      (fun s => if s = "(" then Except.error "missing closing )" else Except.ok ⟨s⟩)
      (fun _ => none) [] none none ⟨"use", true, "(", none⟩ initRequest rfl).1
      "missing closing )" (by simp),
    (C3_use_flag_compile
      (fun s => if s = "(" then Except.error "missing closing )" else Except.ok ⟨s⟩)
      (fun _ => none) [] none none ⟨"use", true, "sess", none⟩ initRequest rfl).2
      ⟨"sess"⟩ (by simp)⟩

/-- Any key present after `mapPut` was already present or is the inserted
key. -/
theorem hasKey_mapPut_imp (m : List (String × String)) (k v q : String)
    (h : hasKey (mapPut m k v) q = true) : hasKey m q = true ∨ q = k := by
  unfold mapPut at h
  split at h
  · unfold hasKey at h ⊢
    simp only [List.any_eq_true, List.mem_map, decide_eq_true_eq] at h ⊢
    obtain ⟨e, ⟨e0, he0, rfl⟩, hq⟩ := h
    by_cases hc : e0.1 = k
    · right
      rw [if_pos hc] at hq
      exact hq.symm
    · left
      rw [if_neg hc] at hq
      exact ⟨e0, he0, hq⟩
  · unfold hasKey at h ⊢
    simp only [List.any_eq_true, List.mem_append, decide_eq_true_eq] at h ⊢
    obtain ⟨e, he, hq⟩ := h
    rcases he with he | he
    · left
      exact ⟨e, he, hq⟩
    · right
      simp only [List.mem_singleton] at he
      subst he
      exact hq.symm

/-- Any key present after the `VisitAll` commit loop was already present or
names a changed flag of the visited set. -/
theorem hasKey_visitAllCommit_imp (flags : List Flag) (m : List (String × String))
    (q : String) (h : hasKey (visitAllCommit flags m) q = true) :
    hasKey m q = true ∨ ∃ f, f ∈ flags ∧ f.changed = true ∧ f.name = q := by
  induction flags generalizing m with
  | nil => exact Or.inl h
  | cons f fs ih =>
    unfold visitAllCommit at h
    rw [List.foldl_cons] at h
    rcases ih _ h with h1 | ⟨f1, hf1, hc1, hn1⟩
    · by_cases hch : f.changed = true
      · rw [if_pos hch] at h1
        rcases hasKey_mapPut_imp _ _ _ _ h1 with h2 | h2
        · exact Or.inl h2
        · exact Or.inr ⟨f, List.mem_cons_self _ _, hch, h2.symm⟩
      · rw [if_neg hch] at h1
        exact Or.inl h1
    · exact Or.inr ⟨f1, List.mem_cons_of_mem _ hf1, hc1, hn1⟩

/-- The `--docker` block never touches `KubeFlags`. -/
theorem applyDockerFlag_kubeFlags (g : GlobalFlags) (cr : Request) :
    (applyDockerFlag g cr).KubeFlags = cr.KubeFlags := by
  unfold applyDockerFlag
  split <;> first | rfl | (split <;> rfl)

/-- A successful `--use` block never touches `KubeFlags`. -/
theorem applyUseFlag_kubeFlags (compile : String → Except String CompiledRegex)
    (g : GlobalFlags) (cr cr' : Request)
    (h : applyUseFlag compile g cr = Except.ok cr') : cr'.KubeFlags = cr.KubeFlags := by
  unfold applyUseFlag at h
  split at h
  · split at h
    · split at h <;> cases h <;> rfl
    · cases h
      rfl
  · cases h
    rfl

/-- The `--context` block leaves `KubeFlags` alone or inserts the changed
global context flag under the key `"context"`. -/
theorem applyContextFlag_kubeFlags (g : GlobalFlags) (cr : Request) :
    (applyContextFlag g cr).KubeFlags = cr.KubeFlags ∨
      ∃ f, g.contextFlag = some f ∧ f.changed = true ∧
        (applyContextFlag g cr).KubeFlags = mapPut cr.KubeFlags "context" f.value := by
  unfold applyContextFlag
  rcases hc : g.contextFlag with _ | f
  · simp [hc]
  · simp only [hc]
    by_cases hch : f.changed = true
    · rw [if_pos hch]
      exact Or.inr ⟨f, rfl, hch, rfl⟩
    · rw [if_neg hch]
      exact Or.inl rfl

/-- The `KubeFlags` of a successful `setGlobalConnectFlags` are the incoming
ones, possibly with the changed global `--context` flag inserted. -/
theorem setGlobal_kubeFlags_cases (compile : String → Except String CompiledRegex)
    (g : GlobalFlags) (cr cr' : Request)
    (h : setGlobalConnectFlags compile g cr = Except.ok cr') :
    cr'.KubeFlags = cr.KubeFlags ∨
      ∃ f, g.contextFlag = some f ∧ f.changed = true ∧
        cr'.KubeFlags = mapPut cr.KubeFlags "context" f.value := by
  unfold setGlobalConnectFlags at h
  have h1 := applyUseFlag_kubeFlags _ _ _ _ h
  rw [applyDockerFlag_kubeFlags] at h1
  rcases applyContextFlag_kubeFlags g cr with h2 | ⟨f, hf, hch, h2⟩
  · exact Or.inl (h1.trans h2)
  · exact Or.inr ⟨f, hf, hch, h1.trans h2⟩

/-- C9: after a successful commit starting from the fresh request (whose
`KubeFlags` map is empty), every key of `KubeFlags` names a Kubernetes flag
the user explicitly changed, or is the key `"context"` inserted for a
changed global `--context` flag; unchanged flags never contribute an
entry. -/
theorem C9_kubeFlags_only_changed (compile : String → Except String CompiledRegex)
    (lookupEnv : String → Option String) (kubeFlagSet : List Flag) (g : GlobalFlags)
    (cr' : Request) (q : String)
    (h : CommitFlags compile lookupEnv kubeFlagSet g initRequest = Except.ok cr')
    (hq : hasKey cr'.KubeFlags q = true) :
    (∃ f, f ∈ kubeFlagSet ∧ f.changed = true ∧ f.name = q) ∨
      (q = "context" ∧ ∃ cf, g.contextFlag = some cf ∧ cf.changed = true) := by
  unfold CommitFlags at h
  rcases setGlobal_kubeFlags_cases _ _ _ _ h with h1 | ⟨f, hcf, hch, h1⟩
  · rw [h1] at hq
    rcases hasKey_visitAllCommit_imp _ _ _ hq with h2 | h2
    · simp [hasKey, initRequest] at h2
    · exact Or.inl h2
  · rw [h1] at hq
    rcases hasKey_mapPut_imp _ _ _ _ hq with h2 | h2
    · rcases hasKey_visitAllCommit_imp _ _ _ h2 with h3 | h3
      · simp [hasKey, initRequest] at h3
      · exact Or.inl h3
    · exact Or.inr ⟨h2, f, hcf, hch⟩

/-- Witness for C9: a commit whose flag set has one changed and one
unchanged flag with a non-empty default yields a map whose only key is the
changed flag's name. -/
theorem C9_kubeFlags_only_changed_witness :
    (∃ f, f ∈ [(⟨"namespace", true, "default", none⟩ : Flag),
          ⟨"kubeconfig", false, "/home/u/.kube/config", none⟩] ∧
        f.changed = true ∧ f.name = "namespace") ∨
      ("namespace" = "context" ∧
        ∃ cf, (⟨none, none, none⟩ : GlobalFlags).contextFlag = some cf ∧
          cf.changed = true) :=
  C9_kubeFlags_only_changed (fun s => Except.ok ⟨s⟩) (fun _ => none)
    [⟨"namespace", true, "default", none⟩, ⟨"kubeconfig", false, "/home/u/.kube/config", none⟩]
    ⟨none, none, none⟩
    ⟨[("namespace", "default")],
      [("-KUBECONFIG", ""), ("-GOOGLE_APPLICATION_CREDENTIALS", "")], false, none, none⟩
    "namespace" rfl (by decide)

end Telepresence
